import Mathlib

/-!
Verification development for the 5tran repository: a shallow embedding of the
pure/algorithmic fragments of the pipeline generator (project-name
sanitization, the BigQuery type map, the orchestrator fallback analyzer, the
Fivetran API polling loop, the CLI deploy working-directory discipline, the
generated-connector auth-header and pagination logic, the OpenAPI parser, and
the dbt mart-model generator), together with theorems settling the spec claims.

Modelling conventions: Python dicts appear as association lists in document
order (Python dicts preserve insertion order and have unique keys); Python
`str.lower` and `str.strip` are modelled on their ASCII fragment via the
corresponding Lean `Char` operations, while the Unicode-aware `str.isalnum`
is abstracted as an explicit predicate parameter (see `Scaffolder`); Python
truthiness of JSON values is the `pyTruthy` function below; a Python `dict.get`
on a non-dict value (a `TypeError` at runtime) is modelled as a missing key.
-/

/-- JSON values, as produced by `json.loads` / `response.json()`.  Objects keep
their fields as an ordered association list. -/
inductive Json where
  | null : Json
  | bool (b : Bool) : Json
  | num (n : Int) : Json
  | str (s : String) : Json
  | arr (elems : List Json) : Json
  | obj (fields : List (String × Json)) : Json

namespace Json

/-- Python `x is None` on a JSON value. -/
def isNull (j : Json) : Bool :=
  match j with
  | .null => true
  | _ => false

/-- `d[k]` lookup / `k in d` support: first binding of key `k` in an object. -/
def get (j : Json) (k : String) : Option Json :=
  match j with
  | .obj fields => (fields.find? (fun p => p.1 = k)).map (·.2)
  | _ => none

/-- Python `d.get(k, default)`. -/
def getD (j : Json) (k : String) (d : Json) : Json := (j.get k).getD d

/-- Python `k in d`. -/
def hasKey (j : Json) (k : String) : Bool := (j.get k).isSome

/-- The ordered field list of an object (empty for non-objects). -/
def entries (j : Json) : List (String × Json) :=
  match j with
  | .obj fields => fields
  | _ => []

/-- Python `isinstance(x, dict)`. -/
def isObj (j : Json) : Bool :=
  match j with
  | .obj _ => true
  | _ => false

/-- Python truthiness of a JSON value (`bool(x)`). -/
def pyTruthy (j : Json) : Bool :=
  match j with
  | .null => false
  | .bool b => b
  | .num n => n != 0
  | .str s => s != ""
  | .arr l => !l.isEmpty
  | .obj fields => !fields.isEmpty

/-- Python `a or b` on JSON values (returns `a` when truthy, else `b`). -/
def pyOr (a b : Json) : Json := if pyTruthy a then a else b

/-- Python `len(x)` for sized JSON values (`None` models a `TypeError`). -/
def pyLen (j : Json) : Option Nat :=
  match j with
  | .arr l => some l.length
  | .obj fields => some fields.length
  | .str s => some s.length
  | _ => none

end Json

/-- Python substring test `needle in hay`. -/
def pyInStr (needle hay : String) : Bool := decide (needle.data <:+: hay.data)

/-- Python `str.lower()`, modelled character-wise on its ASCII fragment. -/
def pyToLower (s : String) : String := String.mk (s.data.map Char.toLower)

/-- Python `s[:n]` (slice of the first `n` code points). -/
def pyTake (s : String) (n : Nat) : String := String.mk (s.data.take n)

/-- Python `str.strip()`: drop leading and trailing whitespace. -/
def pyStrip (s : String) : String :=
  String.mk (((s.data.dropWhile Char.isWhitespace).reverse.dropWhile
    Char.isWhitespace).reverse)

/-- Splitting a character list at every character satisfying `p`, keeping
empty segments (the recursion of Python `str.split(sep)`). -/
def splitPredAux (p : Char → Bool) : List Char → List Char → List (List Char)
  | [], acc => [acc.reverse]
  | x :: xs, acc =>
    if p x then acc.reverse :: splitPredAux p xs []
    else splitPredAux p xs (x :: acc)

/-- Python `s.split(c)` for a one-character separator (empty parts kept,
`"".split(c) == [""]`). -/
def pySplitChar (c : Char) (s : String) : List String :=
  (splitPredAux (fun x => x == c) s.data []).map String.mk

namespace Scaffolder

/-!
From `main.py` / `app.py`, `create_connector_project`:
`safe_project_name = "".join(c if c.isalnum() or c in ["_", "-"] else "_" for c in project_name)`.
Python's `str.isalnum` is a Unicode-table builtin, so it is taken as an
explicit parameter `isalnum` of the embedding; theorems constrain the
parameter only by documented facts about the builtin: on ASCII characters it
coincides with `Char.isAlphanum`, and on non-ASCII Unicode alphanumerics it
is still true — e.g. Python evaluates `"é".isalnum()` to `True`.
-/

/-- One character of the sanitization comprehension. -/
def sanitizeChar (isalnum : Char → Bool) (c : Char) : Char :=
  if isalnum c = true ∨ c = '_' ∨ c = '-' then c else '_'

/-- The sanitized project name (`safe_project_name` in the source). -/
def safe_project_name (isalnum : Char → Bool) (project_name : String) : String :=
  String.mk (project_name.data.map (sanitizeChar isalnum))

/-- `str.isalnum` on the characters of the `"café"` input: it agrees with
Python's builtin on every ASCII character (where the builtin coincides with
`Char.isAlphanum`) and on `'é'` (where `"é".isalnum()` is `True`). -/
def pyIsAlnumSample (c : Char) : Bool := c.isAlphanum || c == 'é'

end Scaffolder

namespace BigQueryManager

/-!
From `src/warehouse/bigquery_manager.py`, `_map_type_to_bigquery`.
-/

/-- The fixed `type_mapping` dict, in source order. -/
def type_mapping : List (String × String) :=
  [("string", "STRING"), ("text", "STRING"),
   ("integer", "INTEGER"), ("int", "INTEGER"),
   ("number", "NUMERIC"),
   ("float", "FLOAT64"), ("double", "FLOAT64"),
   ("boolean", "BOOLEAN"), ("bool", "BOOLEAN"),
   ("date", "DATE"), ("datetime", "DATETIME"), ("timestamp", "TIMESTAMP"),
   ("array", "ARRAY"), ("object", "STRUCT"), ("json", "JSON")]

/-- `type_mapping.get(data_type.lower(), "STRING")`. -/
def map_type_to_bigquery (data_type : String) : String :=
  (((type_mapping.find? (fun p => p.1 == (pyToLower data_type))).map (·.2))).getD "STRING"

end BigQueryManager

namespace Orchestrator

/-!
From `src/orchestrator.py`, `PipelineOrchestrator._fallback_analysis`.
-/

/-- The dict returned by `_fallback_analysis`. -/
structure AnalysisResult where
  source_type : String
  source_name : String
  endpoints : List String
  entities : List String
  business_metrics : List String
  transformations : List String
  use_case : String
deriving DecidableEq

/-- Keyword scan of `_fallback_analysis`: the three `if "<kw>" in
requirements.lower()` appends, in source order, then the `["data"]` default. -/
def fallback_analysis (requirements : String) : AnalysisResult :=
  let entities :=
    (if pyInStr "order" (pyToLower requirements) then ["orders"] else []) ++
    (if pyInStr "customer" (pyToLower requirements) then ["customers"] else []) ++
    (if pyInStr "product" (pyToLower requirements) then ["products"] else [])
  let entities := if entities = [] then ["data"] else entities
  { source_type := "rest_api"
    source_name := "API Source"
    endpoints := ["/data"]
    entities := entities
    business_metrics := ["count", "total"]
    transformations := ["basic staging"]
    use_case := pyTake requirements 100 }

end Orchestrator

namespace FivetranAPIClient

/-!
From `src/connectors/fivetran_api_client.py`, `wait_for_connector_setup`.
Time is modelled explicitly: the clock starts at 0 and advances by
`pollInterval` at each `time.sleep(poll_interval)`; the poll itself
(`get_connector`) is instantaneous, so at the start of iteration `i`
(0-based) the elapsed time is `i * pollInterval`.  `setupState i` is the
`status.setup_state` string observed by the `i`-th poll.  The fuel argument
only bounds the recursion; `fuelExhausted` is never reached when
`0 < pollInterval` (the loop condition fails once `i * pollInterval ≥ timeout`).
-/

/-- How one call of `wait_for_connector_setup` ends, carrying the number of
polls (`get_connector` calls) attempted. -/
inductive WaitOutcome where
  | connected (polls : Nat)
  | setupFailed (state : String) (polls : Nat)
  | timedOut (polls : Nat)
  | fuelExhausted
deriving DecidableEq

/-- The `while time.time() - start_time < timeout` loop. -/
def waitLoop (setupState : Nat → String) (timeout pollInterval : Nat) :
    Nat → Nat → WaitOutcome
  | 0, _ => .fuelExhausted
  | fuel + 1, polls =>
    if polls * pollInterval < timeout then
      let st := setupState polls
      if st = "connected" then .connected (polls + 1)
      else if st = "broken" ∨ st = "incomplete" then .setupFailed st (polls + 1)
      else waitLoop setupState timeout pollInterval fuel (polls + 1)
    else .timedOut polls

/-- `wait_for_connector_setup(connector_id, timeout, poll_interval)`; defaults
are `timeout = 300`, `poll_interval = 10`. -/
def wait_for_connector_setup (setupState : Nat → String)
    (timeout pollInterval : Nat) : WaitOutcome :=
  waitLoop setupState timeout pollInterval (timeout + 1) 0

/-- A `setup_state` value on which the loop keeps polling. -/
def nonterminal (s : String) : Prop :=
  s ≠ "connected" ∧ s ≠ "broken" ∧ s ≠ "incomplete"

instance (s : String) : Decidable (nonterminal s) := by
  unfold nonterminal; infer_instance

end FivetranAPIClient

namespace FivetranManager

/-!
From `src/connectors/fivetran_manager.py`, `FivetranManager.deploy_connector`
and `_extract_connector_id`.  The filesystem checks and the subprocess call
are abstracted into a `DeployEnv`; the process working directory is threaded
explicitly (the call starts in `originalDir`, `os.chdir` updates it, and the
second component of the result is the working directory when the call
returns or raises).
-/

/-- Outcome of `subprocess.run(cmd, capture_output=True, text=True, check=True)`. -/
inductive SubprocessOutcome where
  | ok (stdout : String)
  | calledProcessError (stderr : String)
  | exn (msg : String)
deriving DecidableEq

/-- The environment one `deploy_connector` call observes. -/
structure DeployEnv where
  dirExists : Bool
  connectorFileExists : Bool
  run : SubprocessOutcome
deriving DecidableEq

/-- How `deploy_connector` returns: the success dict, or the exception raised. -/
inductive DeployResult where
  | deployed (connectorId : Option String) (output : String)
  | fileNotFoundError (msg : String)
  | raisedError (msg : String)
deriving DecidableEq

/-- Python `str.split()` (split on whitespace runs, dropping empty parts). -/
def pySplitWS (s : String) : List String :=
  ((splitPredAux Char.isWhitespace s.data []).map String.mk).filter (fun t => t ≠ "")

/-- `_extract_connector_id`: scan stdout lines containing both "connector" and
"id" (case-insensitively) for the first whitespace token longer than 10
characters that contains an underscore. -/
def extract_connector_id (output : String) : Option String :=
  (pySplitChar (Char.ofNat 10) output).findSome? (fun line =>
    if pyInStr "connector" (pyToLower line) && pyInStr "id" (pyToLower line) then
      (pySplitWS line).find? (fun part => decide (part.length > 10) && pyInStr "_" part)
    else none)

/-- `deploy_connector(connector_dir, group_id, destination_id)`: result and the
process working directory on exit.  The `except subprocess.CalledProcessError`
branch re-raises without an `os.chdir(original_dir)`; only the generic
`except Exception` branch restores the directory. -/
def deploy_connector (env : DeployEnv) (originalDir connectorDir : String) :
    DeployResult × String :=
  if ¬ env.dirExists then
    (.fileNotFoundError ("Connector directory not found: " ++ connectorDir), originalDir)
  else if ¬ env.connectorFileExists then
    (.fileNotFoundError ("connector.py not found in " ++ connectorDir), originalDir)
  else
    match env.run with
    | .ok out =>
        (.deployed (extract_connector_id out) out, originalDir)
    | .calledProcessError stderr =>
        (.raisedError ("Connector deployment failed: " ++ stderr), connectorDir)
    | .exn msg =>
        (.raisedError ("Deployment error: " ++ msg), originalDir)

end FivetranManager

namespace ConnectorGenerator

/-!
From `src/connectors/connector_generator.py`, the `CONNECTOR_TEMPLATE` string:
the auth-header block of the generated `update()` and the generated
`get_endpoint_data` pagination helper.
-/

/-- UTF-8 encoding of one character (as byte values), modelling `str.encode()`. -/
def charUtf8 (c : Char) : List Nat :=
  let n := c.toNat
  if n < 128 then [n]
  else if n < 2048 then [192 + n / 64, 128 + n % 64]
  else if n < 65536 then [224 + n / 4096, 128 + n / 64 % 64, 128 + n % 64]
  else [240 + n / 262144, 128 + n / 4096 % 64, 128 + n / 64 % 64, 128 + n % 64]

/-- The standard base64 alphabet. -/
def b64Alphabet : List Char :=
  "ABCDEFGHIJKLMNOPQRSTUVWXYZabcdefghijklmnopqrstuvwxyz0123456789+/".data

/-- The base64 digit for a 6-bit value. -/
def b64Char (n : Nat) : Char := b64Alphabet.getD n 'A'

/-- Standard base64 of a byte list, 3 bytes per 4 output characters with
trailing `=` padding. -/
def base64Chunks : List Nat → List Char
  | [] => []
  | [a] => [b64Char (a / 4), b64Char (a % 4 * 16), '=', '=']
  | [a, b] => [b64Char (a / 4), b64Char (a % 4 * 16 + b / 16), b64Char (b % 16 * 4), '=']
  | a :: b :: c :: rest =>
      b64Char (a / 4) :: b64Char (a % 4 * 16 + b / 16) ::
      b64Char (b % 16 * 4 + c / 64) :: b64Char (c % 64) :: base64Chunks rest

/-- `base64.b64encode(s.encode()).decode()`. -/
def b64encode (s : String) : String :=
  String.mk (base64Chunks (s.data.flatMap charUtf8))

/-- The auth-header block of the generated `update()`: the `headers` dict
after the `if auth_method == ...` chain, as an ordered association list.
Python `.strip()` is modelled by `pyStrip`, and the truthiness test on
`header_prefix` by comparison with the empty string. -/
def build_auth_headers (authMethod headerName headerPrefixValue apiKey : String) :
    List (String × String) :=
  if authMethod = "bearer" then
    [(headerName, pyStrip (headerPrefixValue ++ " " ++ apiKey))]
  else if authMethod = "api_key_header" then
    [(headerName, apiKey)]
  else if authMethod = "basic_auth" then
    [(headerName, "Basic " ++ b64encode apiKey)]
  else if authMethod = "custom_header" then
    [(headerName, if headerPrefixValue ≠ "" then pyStrip (headerPrefixValue ++ " " ++ apiKey) else apiKey)]
  else
    [("Authorization", "Bearer " ++ apiKey)]

/-- The record-normalization step of the generated `get_endpoint_data`:
`records = data` for a list, `data.get("data") or data.get("results") or
data.get("items") or [data]` for a dict, `[data]` otherwise. -/
def recordsOf (data : Json) : Json :=
  match data with
  | .arr l => .arr l
  | .obj fields =>
      Json.pyOr ((Json.obj fields).getD "data" .null)
        (Json.pyOr ((Json.obj fields).getD "results" .null)
          (Json.pyOr ((Json.obj fields).getD "items" .null) (.arr [.obj fields])))
  | d => .arr [d]

/-- Python `all_records.extend(records)`: the elements iterated over
(`None` models the `TypeError` on a non-iterable value). -/
def pyExtend (j : Json) : Option (List Json) :=
  match j with
  | .arr l => some l
  | .str s => some (s.data.map (fun c => Json.str (String.mk [c])))
  | .obj fields => some (fields.map (fun p => Json.str p.1))
  | _ => none

/-- `data.get("next") is not None`. -/
def nextIsNotNone (d : Json) : Bool :=
  match d.get "next" with
  | some v => !v.isNull
  | none => false

/-- How a run of the generated `get_endpoint_data` ends: normal return with
the accumulated records, an uncaught `TypeError`, or fuel exhaustion (the
surrogate for non-termination). -/
inductive FetchOutcome where
  | done (records : List Json)
  | crashed
  | outOfFuel

/-- The `while has_more` loop of the generated `get_endpoint_data`.
`responses page` is the parsed JSON body of the page-`page` request, or
`none` when the request raises a `requests.exceptions.RequestException`
(which the loop catches by setting `has_more = False`). -/
def get_endpoint_data_loop (responses : Nat → Option Json) :
    Nat → Nat → List Json → FetchOutcome
  | 0, _, _ => .outOfFuel
  | fuel + 1, page, all_records =>
    match responses page with
    | none => .done all_records
    | some data =>
      let records := recordsOf data
      if Json.pyTruthy records = false then .done all_records
      else
        match pyExtend records with
        | none => .crashed
        | some recs =>
          let acc := all_records ++ recs
          if data.isObj then
            if Json.pyTruthy (data.getD "has_more" (.bool false)) then
              get_endpoint_data_loop responses fuel (page + 1) acc
            else if nextIsNotNone data then
              get_endpoint_data_loop responses fuel (page + 1) acc
            else
              match Json.pyLen records with
              | none => .crashed
              | some n =>
                if n = 100 then get_endpoint_data_loop responses fuel (page + 1) acc
                else .done acc
          else
            match Json.pyLen records with
            | none => .crashed
            | some n =>
              if n = 100 then get_endpoint_data_loop responses fuel (page + 1) acc
              else .done acc

/-- `get_endpoint_data(url, headers)`: the loop started at `page = 1` with an
empty `all_records`. -/
def get_endpoint_data (responses : Nat → Option Json) (fuel : Nat) : FetchOutcome :=
  get_endpoint_data_loop responses fuel 1 []

/-- A response page on which the claimed non-termination scenario holds: a
dict whose record list is an actual JSON array and which reports a truthy
`has_more`, a non-null `next`, or a full page of exactly 100 records. -/
def loopingResponse (d : Json) : Prop :=
  d.isObj = true ∧ ∃ l, recordsOf d = .arr l ∧
    (Json.pyTruthy (d.getD "has_more" (.bool false)) = true ∨
     nextIsNotNone d = true ∨ l.length = 100)

end ConnectorGenerator

namespace OpenAPIParser

/-!
From `src/connectors/openapi_parser.py`.  `self.spec` is the parsed JSON/YAML
document, a `Json` value here.  A `.keys()`/`.get()` call on a non-dict value
(a Python `TypeError`) is modelled by `Json.entries`/`Json.get` returning
nothing, and a non-string `$ref` (a `TypeError` in `str.split`) by the
no-`$ref` branch.
-/

/-- `get_endpoints`: for each path, the inner `for method in methods.keys()`
appends the path and breaks at the first key whose lower-casing is `get` or
`post`. -/
def get_endpoints (spec : Json) : List String :=
  ((spec.getD "paths" (.obj [])).entries).foldl
    (fun endpoints p =>
      if p.2.entries.any (fun m => (pyToLower m.1) == "get" || (pyToLower m.1) == "post") then
        endpoints ++ [p.1]
      else endpoints)
    []

/-- Python `endpoint.strip("/")`. -/
def pyStripSlashes (s : String) : String :=
  String.mk (((s.data.dropWhile (· = '/')).reverse.dropWhile (· = '/')).reverse)

/-- `endpoint.strip("/").split("/")[0]` (Python `split` never returns an empty
list, so the `if parts:` guard in the source always holds). -/
def firstSegment (endpoint : String) : String :=
  (pySplitChar (Char.ofNat 47) (pyStripSlashes endpoint)).headD ""

/-- `extract_entities`: the set of lower-cased first path segments of the
endpoints.  Python builds a `set`; it is modelled as a duplicate-free list in
first-insertion order (the source's iteration order over the set is
unspecified, and no theorem below depends on the order). -/
def extract_entities (spec : Json) : List String :=
  (get_endpoints spec).foldl
    (fun entities ep =>
      let e := pyToLower (firstSegment ep)
      if e ∈ entities then entities else entities ++ [e])
    []

/-- `_resolve_schema`: one level of `$ref` resolution, walking the `/`-split
pointer components against the root document, skipping `#`, with `{}` as the
default at a missing component. -/
def resolve_schema (spec schema : Json) : Json :=
  match schema.get "$ref" with
  | some (.str ref) =>
      (pySplitChar (Char.ofNat 47) ref).foldl
        (fun acc part => if part = "#" then acc else acc.getD part (.obj []))
        spec
  | _ => schema

/-- One status-code probe of `get_endpoint_schema`: `if status_code in
responses: content = responses[status_code].get("content", {}); if
"application/json" in content: return content["application/json"].get("schema", {})`. -/
def tryStatus (responses : Json) (status : String) : Option Json :=
  match responses.get status with
  | none => none
  | some resp =>
      let content := resp.getD "content" (.obj [])
      match content.get "application/json" with
      | none => none
      | some media => some (media.getD "schema" (.obj []))

/-- The inner loop body of `get_endpoint_schema` for one HTTP method: skip a
missing method, else probe statuses `"200"` then `"201"`. -/
def methodSchema (pathItem : Json) (m : String) : Option Json :=
  match pathItem.get m with
  | none => none
  | some op =>
      let responses := op.getD "responses" (.obj [])
      match tryStatus responses "200" with
      | some s => some s
      | none => tryStatus responses "201"

/-- `get_endpoint_schema(endpoint)`: absent endpoint returns `None`; otherwise
methods `get` then `post` are tried in order, the first extracted schema is
passed through `_resolve_schema`. -/
def get_endpoint_schema (spec : Json) (endpoint : String) : Option Json :=
  let paths := spec.getD "paths" (.obj [])
  if paths.hasKey endpoint then
    let pathItem := paths.getD endpoint .null
    match methodSchema pathItem "get" with
    | some s => some (resolve_schema spec s)
    | none =>
      match methodSchema pathItem "post" with
      | some s => some (resolve_schema spec s)
      | none => none
  else none

end OpenAPIParser

namespace DBTGenerator

/-!
From `src/transformations/dbt_generator.py`, `DBTGenerator.create_mart_model`.
The emitted file is modelled as the pair (model name, SQL text); the source
writes the text to `models/marts/<model name>.sql`.  `sq` is the ASCII
single-quote character, and `\x7b`/`\x7d` denote the literal braces of the
dbt Jinja delimiters.
-/

/-- The ASCII single-quote, used in the emitted SQL. -/
def sq : String := String.mk [Char.ofNat 39]

/-- Opening of the generated f-string, up to the materialization config. -/
def martCfgA : String := "\x7b\x7b\n    config(\n        "

/-- The materialization config of the mart model. -/
def materializedTable : String := "materialized=" ++ sq ++ "table" ++ sq

/-- From the end of the config block to the interpolated mart name. -/
def martCfgB : String := "\n    )\n\x7d\x7d\n\n-- Business metrics mart for "

/-- From the mart name to the dbt `ref` of the base staging model. -/
def martPreRef : String := "\n\nwith base as (\n    select *\n    from \x7b\x7b "

/-- The dbt `ref` call naming the staging model of the given entity. -/
def refText (entity : String) : String :=
  "ref(" ++ sq ++ "stg_" ++ entity ++ sq ++ ")"

/-- From the `ref` call to the first aggregate. -/
def martPostA : String := " \x7d\x7d\n),\n\nmetrics as (\n    select\n        "

/-- The first fixed aggregate of the mart model. -/
def aggTotal : String := "count(*) as total_count"

/-- The separator between the two aggregates. -/
def martPostB : String := ",\n        "

/-- The second fixed aggregate of the mart model. -/
def aggDistinct : String := "count(distinct id) as unique_records"

/-- The tail of the generated SQL. -/
def martPostC : String := "\n    from base\n)\n\nselect * from metrics\n"

/-- `create_mart_model(mart_name, entities, metrics)`: the model name
`mart_<mart_name>` and the SQL text, written by the source to
`models/marts/<model name>.sql`.  The SQL is the source's f-string with its
literal segments named above; the staging reference interpolates
`entities[0] if entities else "unknown"`, and `metrics` is accepted but
unused, exactly as in the source. -/
def create_mart_model (mart_name : String) (entities : List String)
    (metrics : List String) : String × String :=
  ("mart_" ++ mart_name,
   martCfgA ++ materializedTable ++ martCfgB ++ mart_name ++ martPreRef ++
     refText (entities.headD "unknown") ++ martPostA ++ aggTotal ++ martPostB ++
     aggDistinct ++ martPostC)

end DBTGenerator

/-! Concrete OpenAPI documents and response pages used as test inputs. -/

namespace OpenAPIParser

/-- An OpenAPI document with paths `/orders` (get), `/orders/\x7bid\x7d` (get) and
`/customers` (both get and post). -/
def exampleSpec : Json :=
  .obj [("paths", .obj [
    ("/orders", .obj [("get", .obj [])]),
    ("/orders/\x7bid\x7d", .obj [("get", .obj [])]),
    ("/customers", .obj [("get", .obj []), ("post", .obj [])])])]

/-- An OpenAPI document whose `/orders` get operation declares a 200 and a 201
JSON response and whose post operation declares a 200 JSON response; the 200
get schema is a `$ref` to `#/components/schemas/Order`, which itself contains
a nested `$ref` to `#/components/schemas/Item`. -/
def refSpec : Json :=
  .obj [
    ("paths", .obj [("/orders", .obj [
      ("post", .obj [("responses", .obj [
        ("200", .obj [("content", .obj [("application/json", .obj [
          ("schema", .obj [("title", .str "from-post-200")])])])])])]),
      ("get", .obj [("responses", .obj [
        ("200", .obj [("content", .obj [("application/json", .obj [
          ("schema", .obj [("$ref", .str "#/components/schemas/Order")])])])]),
        ("201", .obj [("content", .obj [("application/json", .obj [
          ("schema", .obj [("title", .str "from-get-201")])])])])])])])]),
    ("components", .obj [("schemas", .obj [
      ("Order", .obj [("items", .obj [("$ref", .str "#/components/schemas/Item")])]),
      ("Item", .obj [("type", .str "string")])])])]

end OpenAPIParser

namespace ConnectorGenerator

/-- A response page for which the generated pagination loop keeps going: a
dict with a one-record `data` array and a truthy `has_more`. -/
def loopingPage : Json :=
  .obj [("data", .arr [.obj [("id", .num 1)]]), ("has_more", .bool true)]

end ConnectorGenerator

/-! Theorems settling the claims. -/

/-- C4 counterexample: Python's `str.isalnum` is Unicode-aware, so the
program keeps `'é'` and maps `"café"` to itself — a sanitized name whose
last character is outside `[A-Za-z0-9_-]`, refuting the claim that every
sanitized directory name contains only characters from that class.
(`pyIsAlnumSample` agrees with the builtin on every character this input
exercises.) -/
theorem C4_counterexample :
    Scaffolder.safe_project_name Scaffolder.pyIsAlnumSample "caf\u00e9" = "caf\u00e9" ∧
    '\u00e9' ∈ (Scaffolder.safe_project_name Scaffolder.pyIsAlnumSample "caf\u00e9").data ∧
    ¬ ('\u00e9'.isAlphanum = true ∨ '\u00e9' = '_' ∨ '\u00e9' = '-') := by
  decide

/-- C4 (amended): for any `isalnum` predicate agreeing with `Char.isAlphanum`
on ASCII — as Python's `str.isalnum` does — sanitizing an all-ASCII project
name yields only characters from `[A-Za-z0-9_-]`; in general every character
that is not alphanumeric, `'_'`, or `'-'` is replaced by `'_'`, so every
output character is alphanumeric (in Python's Unicode sense), `'_'`, or
`'-'`; sanitization is idempotent for every name; `"My Project!"` becomes
`"My_Project_"` and re-sanitizing `"My_Project_"` returns it unchanged. -/
theorem C4_sanitization_charset_and_idempotence (isalnum : Char → Bool)
    (hascii : ∀ c : Char, c.toNat < 128 → isalnum c = c.isAlphanum) :
    (∀ name : String, (∀ c ∈ name.data, c.toNat < 128) →
      ∀ c ∈ (Scaffolder.safe_project_name isalnum name).data,
        c.isAlphanum = true ∨ c = '_' ∨ c = '-') ∧
    (∀ name : String, ∀ c ∈ (Scaffolder.safe_project_name isalnum name).data,
      isalnum c = true ∨ c = '_' ∨ c = '-') ∧
    (∀ name : String,
      Scaffolder.safe_project_name isalnum (Scaffolder.safe_project_name isalnum name) =
        Scaffolder.safe_project_name isalnum name) ∧
    Scaffolder.safe_project_name isalnum "My Project!" = "My_Project_" ∧
    Scaffolder.safe_project_name isalnum "My_Project_" = "My_Project_" := by
  have hconc : ∀ name : String, (∀ c ∈ name.data, c.toNat < 128) →
      Scaffolder.safe_project_name isalnum name =
        String.mk (name.data.map (fun c =>
          if c.isAlphanum = true ∨ c = '_' ∨ c = '-' then c else '_')) := by
    intro name hname
    unfold Scaffolder.safe_project_name
    congr 1
    apply List.map_congr_left
    intro a ha
    unfold Scaffolder.sanitizeChar
    rw [hascii a (hname a ha)]
  have hfix : ∀ c : Char,
      Scaffolder.sanitizeChar isalnum (Scaffolder.sanitizeChar isalnum c) =
        Scaffolder.sanitizeChar isalnum c := by
    intro c
    by_cases h : isalnum c = true ∨ c = '_' ∨ c = '-'
    · simp [Scaffolder.sanitizeChar, h]
    · simp only [Scaffolder.sanitizeChar, if_neg h]
      simp
  refine ⟨?_, ?_, ?_, ?_, ?_⟩
  · intro name hname c hc
    simp only [Scaffolder.safe_project_name] at hc
    obtain ⟨a, ha, rfl⟩ := List.mem_map.mp hc
    unfold Scaffolder.sanitizeChar
    split
    · next h =>
      rcases h with h | h | h
      · exact Or.inl (hascii a (hname a ha) ▸ h)
      · exact Or.inr (Or.inl h)
      · exact Or.inr (Or.inr h)
    · exact Or.inr (Or.inl rfl)
  · intro name c hc
    simp only [Scaffolder.safe_project_name] at hc
    obtain ⟨a, ha, rfl⟩ := List.mem_map.mp hc
    unfold Scaffolder.sanitizeChar
    split
    · assumption
    · refine Or.inr (Or.inl rfl)
  · intro name
    simp [Scaffolder.safe_project_name, List.map_map, Function.comp_def, hfix]
  · rw [hconc "My Project!" (by decide)]; decide
  · rw [hconc "My_Project_" (by decide)]; decide

/-- C4 witness: with `Char.isAlphanum` itself as the (trivially
ASCII-faithful) predicate, the sanitized form of `"a!"` contains `'_'`, a
character from the allowed class. -/
theorem C4_witness :
    '_' ∈ (Scaffolder.safe_project_name Char.isAlphanum "a!").data ∧
      ('_'.isAlphanum = true ∨ '_' = '_' ∨ '_' = '-') :=
  ⟨by decide,
   (C4_sanitization_charset_and_idempotence Char.isAlphanum (fun _ _ => rfl)).1
     "a!" (by decide) '_' (by decide)⟩

/-- C8: the source-to-BigQuery type map is total: each of the fifteen
recognized source-type spellings maps (case-insensitively) to its documented
BigQuery type, and any unrecognized string maps to `"STRING"`. -/
theorem C8_bigquery_type_mapping_totality :
    (∀ s : String, pyToLower s = "string" ∨ pyToLower s = "text" →
      BigQueryManager.map_type_to_bigquery s = "STRING") ∧
    (∀ s : String, pyToLower s = "integer" ∨ pyToLower s = "int" →
      BigQueryManager.map_type_to_bigquery s = "INTEGER") ∧
    (∀ s : String, pyToLower s = "number" →
      BigQueryManager.map_type_to_bigquery s = "NUMERIC") ∧
    (∀ s : String, pyToLower s = "float" ∨ pyToLower s = "double" →
      BigQueryManager.map_type_to_bigquery s = "FLOAT64") ∧
    (∀ s : String, pyToLower s = "boolean" ∨ pyToLower s = "bool" →
      BigQueryManager.map_type_to_bigquery s = "BOOLEAN") ∧
    (∀ s : String, pyToLower s = "date" →
      BigQueryManager.map_type_to_bigquery s = "DATE") ∧
    (∀ s : String, pyToLower s = "datetime" →
      BigQueryManager.map_type_to_bigquery s = "DATETIME") ∧
    (∀ s : String, pyToLower s = "timestamp" →
      BigQueryManager.map_type_to_bigquery s = "TIMESTAMP") ∧
    (∀ s : String, pyToLower s = "array" →
      BigQueryManager.map_type_to_bigquery s = "ARRAY") ∧
    (∀ s : String, pyToLower s = "object" →
      BigQueryManager.map_type_to_bigquery s = "STRUCT") ∧
    (∀ s : String, pyToLower s = "json" →
      BigQueryManager.map_type_to_bigquery s = "JSON") ∧
    (∀ s : String, pyToLower s ∉ BigQueryManager.type_mapping.map Prod.fst →
      BigQueryManager.map_type_to_bigquery s = "STRING") := by
  have hmap : ∀ (s k : String), pyToLower s = k →
      BigQueryManager.map_type_to_bigquery s =
        (((BigQueryManager.type_mapping.find? (fun p => p.1 == k)).map (·.2))).getD "STRING" := by
    intro s k hk
    simp only [BigQueryManager.map_type_to_bigquery, hk]
  refine ⟨?_, ?_, ?_, ?_, ?_, ?_, ?_, ?_, ?_, ?_, ?_, ?_⟩
  · intro s h; rcases h with h | h <;> (rw [hmap s _ h]; decide)
  · intro s h; rcases h with h | h <;> (rw [hmap s _ h]; decide)
  · intro s h; rw [hmap s _ h]; decide
  · intro s h; rcases h with h | h <;> (rw [hmap s _ h]; decide)
  · intro s h; rcases h with h | h <;> (rw [hmap s _ h]; decide)
  · intro s h; rw [hmap s _ h]; decide
  · intro s h; rw [hmap s _ h]; decide
  · intro s h; rw [hmap s _ h]; decide
  · intro s h; rw [hmap s _ h]; decide
  · intro s h; rw [hmap s _ h]; decide
  · intro s h; rw [hmap s _ h]; decide
  · intro s h
    have hnone : BigQueryManager.type_mapping.find? (fun p => p.1 == pyToLower s) = none := by
      rw [List.find?_eq_none]
      intro p hp
      simp only [beq_iff_eq]
      intro he
      exact h (he ▸ List.mem_map_of_mem Prod.fst hp)
    simp [BigQueryManager.map_type_to_bigquery, hnone]

/-- C8 witness: `"DateTime"` maps to `"DATETIME"` and `"unknown_type"` maps to
`"STRING"`. -/
theorem C8_witness :
    BigQueryManager.map_type_to_bigquery "DateTime" = "DATETIME" ∧
      BigQueryManager.map_type_to_bigquery "unknown_type" = "STRING" :=
  ⟨C8_bigquery_type_mapping_totality.2.2.2.2.2.2.1 "DateTime" (by decide),
   C8_bigquery_type_mapping_totality.2.2.2.2.2.2.2.2.2.2.2 "unknown_type" (by decide)⟩

/-- C9: the orchestrator's fallback analyzer returns the fixed metrics
`["count", "total"]` and the first 100 characters of the requirements as the
use case; text containing "order" and "customer" but not "product" yields
entities `["orders", "customers"]` in that order, and text containing none of
the three keywords yields `["data"]`. -/
theorem C9_fallback_analysis_keywords (req : String) :
    (Orchestrator.fallback_analysis req).business_metrics = ["count", "total"] ∧
    (Orchestrator.fallback_analysis req).use_case = pyTake req 100 ∧
    (pyInStr "order" (pyToLower req) = true → pyInStr "customer" (pyToLower req) = true →
      pyInStr "product" (pyToLower req) = false →
      (Orchestrator.fallback_analysis req).entities = ["orders", "customers"]) ∧
    (pyInStr "order" (pyToLower req) = false → pyInStr "customer" (pyToLower req) = false →
      pyInStr "product" (pyToLower req) = false →
      (Orchestrator.fallback_analysis req).entities = ["data"]) := by
  refine ⟨rfl, rfl, ?_, ?_⟩ <;>
    (intro h1 h2 h3; simp [Orchestrator.fallback_analysis, h1, h2, h3])

/-- C9 witness: concrete requirement strings exercising both keyword
branches. -/
theorem C9_witness :
    (Orchestrator.fallback_analysis "Sync Order and CUSTOMER rows").entities =
      ["orders", "customers"] ∧
    (Orchestrator.fallback_analysis "nothing relevant here").entities = ["data"] :=
  ⟨(C9_fallback_analysis_keywords "Sync Order and CUSTOMER rows").2.2.1
      (by decide) (by decide) (by decide),
   (C9_fallback_analysis_keywords "nothing relevant here").2.2.2
      (by decide) (by decide) (by decide)⟩

/-- C2: the generated `update()` builds exactly one auth header: bearer with
key `"abc123"` and default header name/prefix gives `Authorization: Bearer
abc123`; basic_auth with key `"user:pass"` gives `"Basic " ++ base64` of the
key under the configured header name (concretely `Basic dXNlcjpwYXNz`);
api_key_header gives the raw key under the configured name; custom_header
with an empty prefix gives exactly the raw key; any unrecognized method gives
`Authorization: Bearer <key>`. -/
theorem C2_auth_header_construction :
    ConnectorGenerator.build_auth_headers "bearer" "Authorization" "Bearer" "abc123" =
      [("Authorization", "Bearer abc123")] ∧
    (∀ name pfx : String,
      ConnectorGenerator.build_auth_headers "basic_auth" name pfx "user:pass" =
        [(name, "Basic " ++ ConnectorGenerator.b64encode "user:pass")]) ∧
    ConnectorGenerator.b64encode "user:pass" = "dXNlcjpwYXNz" ∧
    (∀ name pfx key : String,
      ConnectorGenerator.build_auth_headers "api_key_header" name pfx key = [(name, key)]) ∧
    (∀ name key : String,
      ConnectorGenerator.build_auth_headers "custom_header" name "" key = [(name, key)]) ∧
    (∀ method name pfx key : String,
      method ∉ (["bearer", "api_key_header", "basic_auth", "custom_header"] : List String) →
      ConnectorGenerator.build_auth_headers method name pfx key =
        [("Authorization", "Bearer " ++ key)]) ∧
    (∀ method name pfx key : String,
      (ConnectorGenerator.build_auth_headers method name pfx key).length = 1) := by
  refine ⟨by decide, ?_, by decide, ?_, ?_, ?_, ?_⟩
  · intro name pfx
    simp [ConnectorGenerator.build_auth_headers]
  · intro name pfx key
    simp [ConnectorGenerator.build_auth_headers]
  · intro name key
    simp [ConnectorGenerator.build_auth_headers]
  · intro method name pfx key h
    simp only [List.mem_cons, List.not_mem_nil, or_false, not_or] at h
    obtain ⟨h1, h2, h3, h4⟩ := h
    simp [ConnectorGenerator.build_auth_headers, h1, h2, h3, h4]
  · intro method name pfx key
    unfold ConnectorGenerator.build_auth_headers
    repeat' split
    all_goals rfl

/-- C2 witness: an unrecognized method (`"oauth2"`) falls back to
`Authorization: Bearer <key>`. -/
theorem C2_witness :
    ConnectorGenerator.build_auth_headers "oauth2" "X-Auth" "Token" "k1" =
      [("Authorization", "Bearer k1")] :=
  C2_auth_header_construction.2.2.2.2.2.1 "oauth2" "X-Auth" "Token" "k1" (by decide)

/-- C6: `create_mart_model` emits a table-materialized model named
`mart_<mart_name>` whose SQL selects from the staging model of the first
entity (`ref('stg_<first entity>')`) and computes exactly the two fixed
aggregates `count(*) as total_count` and `count(distinct id) as
unique_records`; the emitted file is identical no matter what the `metrics`
list contains. -/
theorem C6_create_mart_model_fixed_aggregates (mart e0 : String)
    (rest ms1 ms2 : List String) :
    (DBTGenerator.create_mart_model mart (e0 :: rest) ms1).1 = "mart_" ++ mart ∧
    DBTGenerator.create_mart_model mart (e0 :: rest) ms1 =
      DBTGenerator.create_mart_model mart (e0 :: rest) ms2 ∧
    (∃ pre post : String, (DBTGenerator.create_mart_model mart (e0 :: rest) ms1).2 =
      pre ++ ("ref(" ++ DBTGenerator.sq ++ "stg_" ++ e0 ++ DBTGenerator.sq ++ ")") ++ post) ∧
    (∃ pre post : String, (DBTGenerator.create_mart_model mart (e0 :: rest) ms1).2 =
      pre ++ "count(*) as total_count" ++ post) ∧
    (∃ pre post : String, (DBTGenerator.create_mart_model mart (e0 :: rest) ms1).2 =
      pre ++ "count(distinct id) as unique_records" ++ post) ∧
    (∃ pre post : String, (DBTGenerator.create_mart_model mart (e0 :: rest) ms1).2 =
      pre ++ ("materialized=" ++ DBTGenerator.sq ++ "table" ++ DBTGenerator.sq) ++ post) := by
  refine ⟨rfl, rfl, ?_, ?_, ?_, ?_⟩
  · exact ⟨DBTGenerator.martCfgA ++ DBTGenerator.materializedTable ++ DBTGenerator.martCfgB ++
        mart ++ DBTGenerator.martPreRef,
      DBTGenerator.martPostA ++ DBTGenerator.aggTotal ++ DBTGenerator.martPostB ++
        DBTGenerator.aggDistinct ++ DBTGenerator.martPostC,
      by simp only [DBTGenerator.create_mart_model, DBTGenerator.refText, List.headD,
        String.append_assoc]⟩
  · exact ⟨DBTGenerator.martCfgA ++ DBTGenerator.materializedTable ++ DBTGenerator.martCfgB ++
        mart ++ DBTGenerator.martPreRef ++ DBTGenerator.refText e0 ++ DBTGenerator.martPostA,
      DBTGenerator.martPostB ++ DBTGenerator.aggDistinct ++ DBTGenerator.martPostC,
      by simp only [DBTGenerator.create_mart_model, DBTGenerator.aggTotal, List.headD,
        String.append_assoc]⟩
  · exact ⟨DBTGenerator.martCfgA ++ DBTGenerator.materializedTable ++ DBTGenerator.martCfgB ++
        mart ++ DBTGenerator.martPreRef ++ DBTGenerator.refText e0 ++ DBTGenerator.martPostA ++
        DBTGenerator.aggTotal ++ DBTGenerator.martPostB,
      DBTGenerator.martPostC,
      by simp only [DBTGenerator.create_mart_model, DBTGenerator.aggDistinct, List.headD,
        String.append_assoc]⟩
  · exact ⟨DBTGenerator.martCfgA,
      DBTGenerator.martCfgB ++ mart ++ DBTGenerator.martPreRef ++ DBTGenerator.refText e0 ++
        DBTGenerator.martPostA ++ DBTGenerator.aggTotal ++ DBTGenerator.martPostB ++
        DBTGenerator.aggDistinct ++ DBTGenerator.martPostC,
      by simp only [DBTGenerator.create_mart_model, DBTGenerator.materializedTable, List.headD,
        String.append_assoc]⟩

/-- The endpoint-collecting fold appends exactly the first components of the
entries accepted by the method predicate, in order. -/
theorem foldl_ifAppend_eq_filter_map (pred : String × Json → Bool) :
    ∀ (l : List (String × Json)) (acc : List String),
      l.foldl (fun endpoints p => if pred p then endpoints ++ [p.1] else endpoints) acc =
        acc ++ (l.filter pred).map Prod.fst := by
  intro l
  induction l with
  | nil => intro acc; simp
  | cons a t ih =>
    intro acc
    by_cases h : pred a
    · simp [h, ih]
    · simp [h, ih]

/-- Membership in the set-building fold of `extract_entities`. -/
theorem dedup_foldl_mem (key : String → String) :
    ∀ (l : List String) (acc : List String) (x : String),
      x ∈ l.foldl (fun entities ep =>
          if key ep ∈ entities then entities else entities ++ [key ep]) acc ↔
        x ∈ acc ∨ ∃ ep ∈ l, key ep = x := by
  intro l
  induction l with
  | nil => intro acc x; simp
  | cons a t ih =>
    intro acc x
    simp only [List.foldl_cons]
    by_cases h : key a ∈ acc
    · rw [if_pos h, ih]
      constructor
      · rintro (hx | ⟨ep, hep, he⟩)
        · exact Or.inl hx
        · exact Or.inr ⟨ep, List.mem_cons_of_mem a hep, he⟩
      · rintro (hx | ⟨ep, hep, he⟩)
        · exact Or.inl hx
        · rcases List.mem_cons.mp hep with rfl | hep2
          · exact Or.inl (he ▸ h)
          · exact Or.inr ⟨ep, hep2, he⟩
    · rw [if_neg h, ih]
      constructor
      · rintro (hx | ⟨ep, hep, he⟩)
        · rcases List.mem_append.mp hx with hx | hx
          · exact Or.inl hx
          · exact Or.inr ⟨a, List.mem_cons_self a t, (List.mem_singleton.mp hx).symm⟩
        · exact Or.inr ⟨ep, List.mem_cons_of_mem a hep, he⟩
      · rintro (hx | ⟨ep, hep, he⟩)
        · exact Or.inl (List.mem_append_left _ hx)
        · rcases List.mem_cons.mp hep with rfl | hep2
          · exact Or.inl (List.mem_append_right _ (by simp [he.symm]))
          · exact Or.inr ⟨ep, hep2, he⟩

/-- The set-building fold of `extract_entities` preserves duplicate-freedom. -/
theorem dedup_foldl_nodup (key : String → String) :
    ∀ (l : List String) (acc : List String), acc.Nodup →
      (l.foldl (fun entities ep =>
        if key ep ∈ entities then entities else entities ++ [key ep]) acc).Nodup := by
  intro l
  induction l with
  | nil => intro acc h; simpa using h
  | cons a t ih =>
    intro acc h
    simp only [List.foldl_cons]
    by_cases hm : key a ∈ acc
    · rw [if_pos hm]; exact ih acc h
    · rw [if_neg hm]
      refine ih _ ?_
      rw [List.nodup_append]
      exact ⟨h, List.nodup_singleton _, by simpa using hm⟩

/-- C7: the parser's endpoints are exactly the paths whose operations include
a `get` or `post` key, one entry per path in document order (so both
`/orders` and `/orders/\x7bid\x7d` appear), while `entities` is the
duplicate-free set of lower-cased first path segments of those endpoints; on
the document with paths `/orders`, `/orders/\x7bid\x7d`, `/customers` the
entities are exactly `orders` and `customers`. -/
theorem C7_entities_and_endpoints :
    (∀ spec : Json, OpenAPIParser.get_endpoints spec =
      ((spec.getD "paths" (.obj [])).entries.filter
        (fun p => p.2.entries.any
          (fun m => pyToLower m.1 == "get" || pyToLower m.1 == "post"))).map Prod.fst) ∧
    (∀ spec : Json, (OpenAPIParser.extract_entities spec).Nodup) ∧
    (∀ (spec : Json) (x : String),
      x ∈ OpenAPIParser.extract_entities spec ↔
        ∃ ep ∈ OpenAPIParser.get_endpoints spec,
          pyToLower (OpenAPIParser.firstSegment ep) = x) ∧
    OpenAPIParser.get_endpoints OpenAPIParser.exampleSpec =
      ["/orders", "/orders/\x7bid\x7d", "/customers"] ∧
    OpenAPIParser.extract_entities OpenAPIParser.exampleSpec = ["orders", "customers"] := by
  refine ⟨?_, ?_, ?_, by decide, by decide⟩
  · intro spec
    simpa using foldl_ifAppend_eq_filter_map _ (spec.getD "paths" (.obj [])).entries []
  · intro spec
    simpa [OpenAPIParser.extract_entities] using
      dedup_foldl_nodup (fun ep => pyToLower (OpenAPIParser.firstSegment ep))
        (OpenAPIParser.get_endpoints spec) [] List.nodup_nil
  · intro spec x
    simpa [OpenAPIParser.extract_entities] using
      dedup_foldl_mem (fun ep => pyToLower (OpenAPIParser.firstSegment ep))
        (OpenAPIParser.get_endpoints spec) [] x

/-- C5: `get_endpoint_schema` returns nothing for an absent endpoint; it
prefers the `get` operation over `post` and, inside one operation, status
`"200"` over `"201"`, extracting the `application/json` response schema and
passing it once through `_resolve_schema`; `_resolve_schema` leaves a
`$ref`-free schema unchanged and resolves a `$ref` by a single walk of the
`/`-split pointer components over the root document — on the concrete
document `refSpec` the returned `Order` schema still contains its nested,
unresolved `$ref` to `Item`. -/
theorem C5_endpoint_schema_resolution :
    (∀ (spec : Json) (ep : String),
      (spec.getD "paths" (.obj [])).hasKey ep = false →
      OpenAPIParser.get_endpoint_schema spec ep = none) ∧
    (∀ (spec : Json) (ep : String) (s : Json),
      (spec.getD "paths" (.obj [])).hasKey ep = true →
      OpenAPIParser.methodSchema ((spec.getD "paths" (.obj [])).getD ep .null) "get" = some s →
      OpenAPIParser.get_endpoint_schema spec ep = some (OpenAPIParser.resolve_schema spec s)) ∧
    (∀ (spec : Json) (ep : String) (s : Json),
      (spec.getD "paths" (.obj [])).hasKey ep = true →
      OpenAPIParser.methodSchema ((spec.getD "paths" (.obj [])).getD ep .null) "get" = none →
      OpenAPIParser.methodSchema ((spec.getD "paths" (.obj [])).getD ep .null) "post" = some s →
      OpenAPIParser.get_endpoint_schema spec ep = some (OpenAPIParser.resolve_schema spec s)) ∧
    (∀ (spec : Json) (ep : String),
      OpenAPIParser.methodSchema ((spec.getD "paths" (.obj [])).getD ep .null) "get" = none →
      OpenAPIParser.methodSchema ((spec.getD "paths" (.obj [])).getD ep .null) "post" = none →
      OpenAPIParser.get_endpoint_schema spec ep = none) ∧
    (∀ (pathItem op : Json) (m : String) (s : Json),
      pathItem.get m = some op →
      OpenAPIParser.tryStatus (op.getD "responses" (.obj [])) "200" = some s →
      OpenAPIParser.methodSchema pathItem m = some s) ∧
    (∀ (pathItem op : Json) (m : String) (s : Json),
      pathItem.get m = some op →
      OpenAPIParser.tryStatus (op.getD "responses" (.obj [])) "200" = none →
      OpenAPIParser.tryStatus (op.getD "responses" (.obj [])) "201" = some s →
      OpenAPIParser.methodSchema pathItem m = some s) ∧
    (∀ (spec : Json) (fields : List (String × Json)),
      (Json.obj fields).get "$ref" = none →
      OpenAPIParser.resolve_schema spec (.obj fields) = .obj fields) ∧
    (∀ (spec : Json) (fields : List (String × Json)) (ref : String),
      (Json.obj fields).get "$ref" = some (.str ref) →
      OpenAPIParser.resolve_schema spec (.obj fields) =
        (pySplitChar (Char.ofNat 47) ref).foldl
          (fun acc part => if part = "#" then acc else acc.getD part (.obj [])) spec) ∧
    OpenAPIParser.get_endpoint_schema OpenAPIParser.refSpec "/orders" =
      some (.obj [("items", .obj [("$ref", .str "#/components/schemas/Item")])]) := by
  refine ⟨?_, ?_, ?_, ?_, ?_, ?_, ?_, ?_, rfl⟩
  · intro spec ep h
    simp [OpenAPIParser.get_endpoint_schema, h]
  · intro spec ep s hk hg
    simp [OpenAPIParser.get_endpoint_schema, hk, hg]
  · intro spec ep s hk hg hp
    simp [OpenAPIParser.get_endpoint_schema, hk, hg, hp]
  · intro spec ep hg hp
    by_cases hk : (spec.getD "paths" (.obj [])).hasKey ep
    · simp [OpenAPIParser.get_endpoint_schema, hk, hg, hp]
    · simp [OpenAPIParser.get_endpoint_schema, hk]
  · intro pathItem op m s hm h200
    simp [OpenAPIParser.methodSchema, hm, h200]
  · intro pathItem op m s hm h200 h201
    simp [OpenAPIParser.methodSchema, hm, h200, h201]
  · intro spec fields h
    simp [OpenAPIParser.resolve_schema, h]
  · intro spec fields ref h
    simp [OpenAPIParser.resolve_schema, h]

/-- C5 witness: a document with no `paths` entry yields no schema for any
endpoint. -/
theorem C5_witness :
    OpenAPIParser.get_endpoint_schema (.obj []) "/orders" = none :=
  C5_endpoint_schema_resolution.1 (.obj []) "/orders" rfl

/-- Stepping the polling loop past `i` consecutive non-terminal polls whose
loop condition holds consumes `i` fuel and advances the poll counter by `i`. -/
theorem waitLoop_advance (setupState : Nat → String) (T p : Nat) :
    ∀ (i fuel polls : Nat),
      (∀ j, polls ≤ j → j < polls + i →
        FivetranAPIClient.nonterminal (setupState j) ∧ j * p < T) →
      i ≤ fuel →
      FivetranAPIClient.waitLoop setupState T p fuel polls =
        FivetranAPIClient.waitLoop setupState T p (fuel - i) (polls + i) := by
  intro i
  induction i with
  | zero => intro fuel polls _ _; simp
  | succ k ih =>
    intro fuel polls h hle
    cases fuel with
    | zero => omega
    | succ f =>
      have h0 := h polls (Nat.le_refl _) (by omega)
      obtain ⟨⟨hc, hb, hi⟩, hlt⟩ := h0
      have hstep : FivetranAPIClient.waitLoop setupState T p (f + 1) polls =
          FivetranAPIClient.waitLoop setupState T p f (polls + 1) := by
        simp only [FivetranAPIClient.waitLoop, if_pos hlt]
        rw [if_neg hc, if_neg (by
          rintro (h1 | h2)
          · exact hb h1
          · exact hi h2)]
      rw [hstep, ih f (polls + 1) (fun j hj1 hj2 => h j (by omega) (by omega)) (by omega)]
      congr 1 <;> omega

/-- C3: `wait_for_connector_setup` (with positive poll interval) returns the
connector at the first poll observing `setup_state == "connected"`, raises a
non-timeout setup-failure error at the first poll observing `"broken"` or
`"incomplete"`, and, when no poll ever observes a terminal state, raises a
Timeout error only after at least `timeout / poll_interval` (floor) polls. -/
theorem C3_wait_for_connector_setup_polling (setupState : Nat → String)
    (T p : Nat) (hp : 0 < p) :
    (∀ i, (∀ j < i, FivetranAPIClient.nonterminal (setupState j)) →
      setupState i = "connected" → i * p < T →
      FivetranAPIClient.wait_for_connector_setup setupState T p = .connected (i + 1)) ∧
    (∀ i, (∀ j < i, FivetranAPIClient.nonterminal (setupState j)) →
      (setupState i = "broken" ∨ setupState i = "incomplete") → i * p < T →
      FivetranAPIClient.wait_for_connector_setup setupState T p =
        .setupFailed (setupState i) (i + 1)) ∧
    ((∀ j, FivetranAPIClient.nonterminal (setupState j)) →
      ∃ n, FivetranAPIClient.wait_for_connector_setup setupState T p = .timedOut n ∧
        T / p ≤ n) := by
  have hreach : ∀ i, (∀ j < i, FivetranAPIClient.nonterminal (setupState j)) →
      i * p < T →
      FivetranAPIClient.wait_for_connector_setup setupState T p =
        FivetranAPIClient.waitLoop setupState T p (T + 1 - i) i := by
    intro i hpre hlt
    have hile : i ≤ i * p := Nat.le_mul_of_pos_right i hp
    unfold FivetranAPIClient.wait_for_connector_setup
    rw [waitLoop_advance setupState T p i (T + 1) 0
      (fun j hj1 hj2 => ⟨hpre j (by omega), by
        calc j * p ≤ i * p := Nat.mul_le_mul_right p (by omega)
          _ < T := hlt⟩)
      (by omega)]
    simp
  refine ⟨?_, ?_, ?_⟩
  · intro i hpre hconn hlt
    rw [hreach i hpre hlt]
    have hile : i ≤ i * p := Nat.le_mul_of_pos_right i hp
    rw [show T + 1 - i = (T - i) + 1 by omega]
    simp only [FivetranAPIClient.waitLoop, if_pos hlt]
    rw [if_pos hconn]
  · intro i hpre hfail hlt
    rw [hreach i hpre hlt]
    have hile : i ≤ i * p := Nat.le_mul_of_pos_right i hp
    rw [show T + 1 - i = (T - i) + 1 by omega]
    simp only [FivetranAPIClient.waitLoop, if_pos hlt]
    have hne : ¬ setupState i = "connected" := by
      rcases hfail with h | h <;> (rw [h]; decide)
    rw [if_neg hne, if_pos hfail]
  · intro hall
    have hex : ∃ i, T ≤ i * p := ⟨T, Nat.le_mul_of_pos_right T hp⟩
    obtain ⟨n, hn, hmin⟩ : ∃ n, T ≤ n * p ∧ ∀ j < n, j * p < T := by
      refine ⟨Nat.find hex, Nat.find_spec hex, ?_⟩
      intro j hj
      have := Nat.find_min hex hj
      omega
    refine ⟨n, ?_, ?_⟩
    · have hend : FivetranAPIClient.wait_for_connector_setup setupState T p =
          FivetranAPIClient.waitLoop setupState T p (T + 1 - n) n := by
        rcases Nat.eq_zero_or_pos n with rfl | hn0
        · simp [FivetranAPIClient.wait_for_connector_setup]
        · have h1 := hmin (n - 1) (by omega)
          have h2 : n - 1 ≤ (n - 1) * p := Nat.le_mul_of_pos_right _ hp
          unfold FivetranAPIClient.wait_for_connector_setup
          rw [waitLoop_advance setupState T p n (T + 1) 0
            (fun j hj1 hj2 => ⟨hall j, hmin j (by omega)⟩) (by omega)]
          simp
      rw [hend]
      have hnle : n ≤ T := by
        rcases Nat.eq_zero_or_pos n with rfl | hn0
        · omega
        · have h1 := hmin (n - 1) (by omega)
          have h2 : n - 1 ≤ (n - 1) * p := Nat.le_mul_of_pos_right _ hp
          omega
      rw [show T + 1 - n = (T - n) + 1 by omega]
      simp only [FivetranAPIClient.waitLoop]
      rw [if_neg (by omega)]
    · by_contra hcon
      push_neg at hcon
      have h1 : (n + 1) * p ≤ T / p * p := Nat.mul_le_mul_right p (by omega)
      have h2 := Nat.div_mul_le_self T p
      have h3 : (n + 1) * p = n * p + p := by ring
      omega

/-- C3 witness: with the default timeout 300 and poll interval 10, a
connector whose state is `syncing` on the first three polls and `connected`
on the fourth is returned after 4 polls. -/
theorem C3_witness :
    FivetranAPIClient.wait_for_connector_setup
      (fun i => if i = 3 then "connected" else "syncing") 300 10 = .connected 4 :=
  (C3_wait_for_connector_setup_polling
    (fun i => if i = 3 then "connected" else "syncing") 300 10 (by omega)).1 3
    (by decide) (by decide) (by omega)

/-- C1 counterexample: when the deploy subprocess exits non-zero
(`subprocess.CalledProcessError`, here with stderr `"boom"`), the raising
`except` branch performs no `os.chdir(original_dir)`, so the process working
directory on exit is not the original directory — refuting the claim that the
directory is restored on every exit path. -/
theorem C1_counterexample :
    (FivetranManager.deploy_connector ⟨true, true, .calledProcessError "boom"⟩
      "/original" "/connector").2 ≠ "/original" := by
  decide

/-- C1 (amended): `deploy_connector` restores the working directory on
success and on any exception other than a non-zero deploy exit, and leaves
the directory never changed when the existence checks fail; but when the
deploy subprocess exits non-zero it raises `"Connector deployment failed:"`
with the working directory left at the connector directory. -/
theorem C1_deploy_connector_cwd_discipline (env : FivetranManager.DeployEnv)
    (originalDir connectorDir : String) :
    (env.dirExists = true → env.connectorFileExists = true →
      ∀ out, env.run = .ok out →
        FivetranManager.deploy_connector env originalDir connectorDir =
          (.deployed (FivetranManager.extract_connector_id out) out, originalDir)) ∧
    (env.dirExists = true → env.connectorFileExists = true →
      ∀ msg, env.run = .exn msg →
        FivetranManager.deploy_connector env originalDir connectorDir =
          (.raisedError ("Deployment error: " ++ msg), originalDir)) ∧
    (env.dirExists = true → env.connectorFileExists = true →
      ∀ stderr, env.run = .calledProcessError stderr →
        FivetranManager.deploy_connector env originalDir connectorDir =
          (.raisedError ("Connector deployment failed: " ++ stderr), connectorDir)) ∧
    (env.dirExists = false ∨ env.connectorFileExists = false →
      (FivetranManager.deploy_connector env originalDir connectorDir).2 = originalDir) := by
  obtain ⟨d, f, r⟩ := env
  refine ⟨?_, ?_, ?_, ?_⟩
  · rintro rfl rfl out rfl
    simp [FivetranManager.deploy_connector]
  · rintro rfl rfl msg rfl
    simp [FivetranManager.deploy_connector]
  · rintro rfl rfl stderr rfl
    simp [FivetranManager.deploy_connector]
  · rintro (h | h)
    · subst h; cases f <;> cases r <;> simp [FivetranManager.deploy_connector]
    · subst h; cases d <;> cases r <;> simp [FivetranManager.deploy_connector]

/-- C1 witness: a concrete run through the generic-exception branch (the
deployer binary missing) restores the original working directory. -/
theorem C1_witness :
    FivetranManager.deploy_connector ⟨true, true, .exn "fivetran not found"⟩
      "/original" "/connector" =
      (.raisedError ("Deployment error: " ++ "fivetran not found"), "/original") :=
  (C1_deploy_connector_cwd_discipline ⟨true, true, .exn "fivetran not found"⟩
    "/original" "/connector").2.1 rfl rfl "fivetran not found" rfl

/-- Truthiness of Python `a or b` on JSON values. -/
theorem pyOr_truthy (a b : Json) :
    Json.pyTruthy (Json.pyOr a b) = (Json.pyTruthy a || Json.pyTruthy b) := by
  unfold Json.pyOr
  by_cases h : Json.pyTruthy a = true
  · simp [h]
  · simp at h
    simp [h]

/-- For a dict-shaped response the normalized record value is always truthy:
either one of `data`/`results`/`items` is truthy, or the fallback `[data]` is
a non-empty list. -/
theorem recordsOf_obj_truthy (fields : List (String × Json)) :
    Json.pyTruthy (ConnectorGenerator.recordsOf (.obj fields)) = true := by
  unfold ConnectorGenerator.recordsOf
  rw [pyOr_truthy, pyOr_truthy, pyOr_truthy]
  simp [Json.pyTruthy]

/-- C10: the generated pagination helper can never take its empty-page stop
branch on a dict response (the normalized records are always truthy), and on
any response stream whose pages are all dicts carrying an array record list
and reporting a truthy `has_more`, a non-null `next`, or exactly 100 records,
the fetch loop runs forever (every finite fuel is exhausted). -/
theorem C10_pagination_nontermination (responses : Nat → Option Json) :
    (∀ fields : List (String × Json),
      Json.pyTruthy (ConnectorGenerator.recordsOf (.obj fields)) = true) ∧
    ((∀ i, 1 ≤ i → ∃ d, responses i = some d ∧ ConnectorGenerator.loopingResponse d) →
      ∀ fuel page acc, 1 ≤ page →
        ConnectorGenerator.get_endpoint_data_loop responses fuel page acc = .outOfFuel) ∧
    ((∀ i, 1 ≤ i → ∃ d, responses i = some d ∧ ConnectorGenerator.loopingResponse d) →
      ∀ fuel, ConnectorGenerator.get_endpoint_data responses fuel = .outOfFuel) := by
  have main : (∀ i, 1 ≤ i → ∃ d, responses i = some d ∧
        ConnectorGenerator.loopingResponse d) →
      ∀ fuel page acc, 1 ≤ page →
        ConnectorGenerator.get_endpoint_data_loop responses fuel page acc = .outOfFuel := by
    intro h fuel
    induction fuel with
    | zero => intro page acc _; rfl
    | succ f ih =>
      intro page acc hpage
      obtain ⟨d, hd, hobj, l, hrec, hdisj⟩ := h page hpage
      have hfields : ∃ fields, d = Json.obj fields := by
        cases d <;> simp_all [Json.isObj]
      obtain ⟨fields, rfl⟩ := hfields
      have htr : Json.pyTruthy (ConnectorGenerator.recordsOf (.obj fields)) = true :=
        recordsOf_obj_truthy fields
      simp only [ConnectorGenerator.get_endpoint_data_loop, hd, hrec]
      rw [hrec] at htr
      rw [if_neg (by simp [htr])]
      simp only [ConnectorGenerator.pyExtend]
      have hio : Json.isObj (.obj fields) = true := rfl
      rw [if_pos hio]
      rcases hdisj with h1 | h2 | h3
      · rw [if_pos h1]
        exact ih (page + 1) (acc ++ l) (by omega)
      · by_cases hm : Json.pyTruthy ((Json.obj fields).getD "has_more" (.bool false)) = true
        · rw [if_pos hm]
          exact ih (page + 1) (acc ++ l) (by omega)
        · rw [if_neg hm, if_pos h2]
          exact ih (page + 1) (acc ++ l) (by omega)
      · by_cases hm : Json.pyTruthy ((Json.obj fields).getD "has_more" (.bool false)) = true
        · rw [if_pos hm]
          exact ih (page + 1) (acc ++ l) (by omega)
        · rw [if_neg hm]
          by_cases hn : ConnectorGenerator.nextIsNotNone (.obj fields) = true
          · rw [if_pos hn]
            exact ih (page + 1) (acc ++ l) (by omega)
          · rw [if_neg hn]
            simp only [Json.pyLen]
            rw [if_pos h3]
            exact ih (page + 1) (acc ++ l) (by omega)
  exact ⟨recordsOf_obj_truthy, main,
    fun h fuel => main h fuel 1 [] (Nat.le_refl 1)⟩

/-- C10 witness: a constant stream of full `has_more` pages exhausts any
fuel, here fuel 5 starting from page 1. -/
theorem C10_witness :
    ConnectorGenerator.get_endpoint_data (fun _ => some ConnectorGenerator.loopingPage) 5 =
      .outOfFuel :=
  (C10_pagination_nontermination (fun _ => some ConnectorGenerator.loopingPage)).2.2
    (fun i _ => ⟨ConnectorGenerator.loopingPage, rfl,
      rfl, [.obj [("id", .num 1)]], rfl, Or.inl rfl⟩) 5
